import Mathlib

/-!
Verification of the smart-routing layer of the ethereum-mcp repository
(src/src/router/index.ts) against its natural-language specification.

The mutable pieces (the circuit-breaker map, the wall clock) are
made explicit: every operation takes the circuit-breaker table and the
current timestamp as arguments and returns the updated table.  A provider
thunk is modelled by the value it would resolve to or the message it would
throw (`Except String T`), which is faithful because the executor invokes
each thunk at most once per call.
-/

deriving instance DecidableEq for Except

namespace EthereumMcp

/-- JS `String.prototype.toLowerCase()` as the router uses it (ASCII chain
names): lowercase every character. -/
def jsToLower (s : String) : String := ⟨s.data.map Char.toLower⟩

/-! ### Circuit breaker (router/index.ts lines 22-73) -/

/-- CircuitState from router/index.ts lines 22-26. -/
structure CircuitState where
  failures : Nat
  lastFailure : Nat
  isOpen : Bool
deriving DecidableEq, Repr

/-- The state `getCircuit` lazily creates (line 35). -/
def initialCircuit : CircuitState :=
  { failures := 0, lastFailure := 0, isOpen := false }

/-- The circuit-breaker table, keyed by provider name.  The JS `Map` plus
lazy default-insertion in `getCircuit` is modelled as a total function with
`initialCircuit` as the default. -/
def CBMap : Type := String → CircuitState

def emptyCB : CBMap := fun _ => initialCircuit

def getCircuit (m : CBMap) (s : String) : CircuitState := m s

def setCircuit (m : CBMap) (s : String) (c : CircuitState) : CBMap :=
  fun t => if t = s then c else m t

/-- FAILURE_THRESHOLD (line 28). -/
def FAILURE_THRESHOLD : Nat := 3

/-- RECOVERY_TIME in milliseconds (line 29). -/
def RECOVERY_TIME : Nat := 60000

/-- recordSuccess (lines 40-44). -/
def recordSuccess (m : CBMap) (s : String) : CBMap :=
  let c := getCircuit m s
  setCircuit m s { c with failures := 0, isOpen := false }

/-- recordFailure (lines 46-53): increments `failures`, unconditionally
stamps `lastFailure := now`, and opens the circuit when the new count
reaches the threshold. -/
def recordFailure (m : CBMap) (now : Nat) (s : String) : CBMap :=
  let c := getCircuit m s
  let c1 : CircuitState := { c with failures := c.failures + 1, lastFailure := now }
  let c2 : CircuitState :=
    if FAILURE_THRESHOLD ≤ c1.failures then { c1 with isOpen := true } else c1
  setCircuit m s c2

/-- isCircuitOpen (lines 55-65).  Returns the answer together with the
(possibly mutated) table: when the recovery time has elapsed the flag is
cleared as a side effect of the query (the half-open probe). -/
def isCircuitOpen (m : CBMap) (now : Nat) (s : String) : Bool × CBMap :=
  let c := getCircuit m s
  if c.isOpen = false then (false, m)
  else if RECOVERY_TIME < now - c.lastFailure then
    (false, setCircuit m s { c with isOpen := false })
  else (true, m)

/-! ### Fallback executor (router/index.ts lines 79-122) -/

/-- One entry of `options.sources`: a provider name and its thunk, the
thunk modelled by the outcome of its single invocation. -/
structure Source (T : Type) where
  name : String
  fn : Except String T
deriving DecidableEq, Repr

/-- The record returned on success (lines 87-91, 112). -/
structure FallbackSuccess (T : Type) where
  result : T
  source : String
  fallbacksUsed : Nat
deriving DecidableEq, Repr

/-- Result of one `executeWithFallback` call, with the mutated
circuit-breaker table and, as observable traces, the `errors` accumulator
(line 92), the names whose thunk was invoked, and the names
`recordFailure` was applied to. -/
structure RunOutcome (T : Type) where
  outcome : Except String (FallbackSuccess T)
  cb : CBMap
  errors : List (String × String)
  invoked : List String
  failed : List String

/-- The validator test: line 107 throws when a validator is supplied and
rejects the value. -/
def validateRejects {T : Type} (validate : Option (T → Bool)) (v : T) : Bool :=
  match validate with
  | none => false
  | some f => !(f v)

/-- Line 120: the recorded reasons joined as a single summary string. -/
def errorSummary (errors : List (String × String)) : String :=
  String.intercalate "; " (errors.map (fun e => e.1 ++ ": " ++ e.2))

/-- The loop of `executeWithFallback` (lines 94-121), one list element per
iteration, the loop index `i` and the `errors` accumulator threaded
explicitly. -/
def fallbackLoop {T : Type} (validate : Option (T → Bool)) (now : Nat) :
    List (Source T) → Nat → List (String × String) → CBMap →
    List String → List String → RunOutcome T
  | [], _, errors, cb, inv, fl =>
    ⟨Except.error ("All sources failed: " ++ errorSummary errors), cb, errors, inv, fl⟩
  | src :: rest, i, errors, cb, inv, fl =>
    let p := isCircuitOpen cb now src.name
    if p.1 then
      fallbackLoop validate now rest (i + 1)
        (errors ++ [(src.name, "Circuit breaker open")]) p.2 inv fl
    else
      match src.fn with
      | Except.ok v =>
        if validateRejects validate v then
          fallbackLoop validate now rest (i + 1)
            (errors ++ [(src.name, "Validation failed")])
            (recordFailure p.2 now src.name) (inv ++ [src.name]) (fl ++ [src.name])
        else
          ⟨Except.ok ⟨v, src.name, i⟩, recordSuccess p.2 src.name, errors,
            inv ++ [src.name], fl⟩
      | Except.error msg =>
        fallbackLoop validate now rest (i + 1)
          (errors ++ [(src.name, msg)])
          (recordFailure p.2 now src.name) (inv ++ [src.name]) (fl ++ [src.name])

/-- executeWithFallback (lines 87-122). -/
def executeWithFallback {T : Type} (cb : CBMap) (now : Nat)
    (sources : List (Source T)) (validate : Option (T → Bool)) : RunOutcome T :=
  fallbackLoop validate now sources 0 [] cb [] []

/-! ### L2 TVL routing (router/index.ts lines 315-351) -/

/-- getL2Chain of the growthepie adapter (src/unnamed/part_002 lines
132-166), restricted to the one field the router reads.  The fundamentals
map is the association list of origin_key to the latest tvl metric value;
the adapter lowercases its argument before the map lookup and bakes the
JS `metrics.get tvl or 0` default into the value. -/
def getL2Chain (fundamentals : List (String × Int)) (chain : String) : Option Int :=
  fundamentals.lookup (jsToLower chain)

/-- The growthepie source thunk of getL2Tvl (lines 323-333): a network
outcome for the fundamentals, then the JS falsy test on data and data.tvl
(null or 0 both throw the same message). -/
def gtpTvlFn (gtpRes : Except String (List (String × Int)))
    (normalizedChain : String) : Except String Int :=
  match gtpRes with
  | Except.error e => Except.error e
  | Except.ok fundamentals =>
    match getL2Chain fundamentals normalizedChain with
    | none => Except.error "Chain not found"
    | some tvl => if tvl = 0 then Except.error "Chain not found" else Except.ok tvl

/-- The defillama source thunk of getL2Tvl (lines 334-345): the chains
list is searched by lowercased name; a missing chain or a falsy (zero)
tvl throws. -/
def dlTvlFn (dlRes : Except String (List (String × Int)))
    (normalizedChain : String) : Except String Int :=
  match dlRes with
  | Except.error e => Except.error e
  | Except.ok chains =>
    match chains.find? (fun c => jsToLower c.1 == normalizedChain) with
    | none => Except.error "Chain not found"
    | some c => if c.2 = 0 then Except.error "Chain not found" else Except.ok c.2

/-- The validator of getL2Tvl (line 347). -/
def tvlValidate : Int → Bool := fun t => decide (0 ≤ t)

/-- getL2Tvl (lines 318-351), the provider network responses passed in as
arguments (the breakdown field is constantly undefined and omitted). -/
def getL2Tvl (cb : CBMap) (now : Nat)
    (gtpRes dlRes : Except String (List (String × Int))) (chain : String) :
    RunOutcome Int :=
  let normalizedChain := jsToLower chain
  executeWithFallback cb now
    [⟨"growthepie", gtpTvlFn gtpRes normalizedChain⟩,
     ⟨"defillama", dlTvlFn dlRes normalizedChain⟩]
    (some tvlValidate)

/-! ### On-chain routing (router/index.ts lines 420-467) -/

/-- The message of the synthetic provider (lines 460-462). -/
def noSourceMsg : String :=
  "No data source configured. Set an Etherscan API key (set_etherscan_key) or connect a JSON-RPC node (set_node_url)."

/-- onChainSources (lines 425-467).  The adapter boundary is passed in:
the two isConfigured flags, the chain id of the node (null modelled as none),
and the getChainId lookup of the explorer (none models a throw for an unknown
chain name).  The thunks are the outcomes of the two adapter calls. -/
def onChainSources {T : Type} (jsonrpcConf : Bool) (nodeChainId : Option String)
    (etherscanConf : Bool) (chainIdOf : String → Option String)
    (jsonrpcFn etherscanFn : Except String T)
    (requestedChain : Option String) : List (Source T) :=
  let sources1 : List (Source T) :=
    if jsonrpcConf then
      let includeJsonRpc : Bool :=
        match requestedChain with
        | none => true
        | some rc =>
          match chainIdOf rc with
          | none => false
          | some rcid =>
            match nodeChainId with
            | none => true
            | some ncid => rcid == ncid
      if includeJsonRpc then [⟨"JSON-RPC", jsonrpcFn⟩] else []
    else []
  let sources2 : List (Source T) :=
    sources1 ++ (if etherscanConf then [⟨"Etherscan", etherscanFn⟩] else [])
  if sources2.isEmpty then [⟨"No source", Except.error noSourceMsg⟩] else sources2

/-- The shared shape of every on-chain primitive operation (getBalance,
getBlockNumber, getBlock, getTransaction, getTransactionReceipt,
onChainEthCall, getCode, getStorageAt, onChainEstimateGas, getGasPrice,
onChainGetLogs, onChainGetTransactionCount, onChainGetBalanceMulti; lines
469-640): executeWithFallback over onChainSources with no validator. -/
def onChainCall {T : Type} (cb : CBMap) (now : Nat) (jsonrpcConf : Bool)
    (nodeChainId : Option String) (etherscanConf : Bool)
    (chainIdOf : String → Option String) (jsonrpcFn etherscanFn : Except String T)
    (requestedChain : Option String) : RunOutcome T :=
  executeWithFallback cb now
    (onChainSources jsonrpcConf nodeChainId etherscanConf chainIdOf
      jsonrpcFn etherscanFn requestedChain) none

/-- Substring occurrence at the head of a character list. -/
def charsStart : List Char → List Char → Bool
  | _, [] => true
  | [], _ :: _ => false
  | a :: hs, b :: ss => a == b && charsStart hs ss

/-- Substring occurrence anywhere in a character list. -/
def charsOccur : List Char → List Char → Bool
  | [], sub => sub.isEmpty
  | h :: hs, sub => charsStart (h :: hs) sub || charsOccur hs sub

/-- Whether the string sub occurs inside hay. -/
def strOccurs (hay sub : String) : Bool := charsOccur hay.data sub.data

/-! ### Source comparison (router/index.ts lines 714-785 and the variance
computation of the compare_eth_price_sources tool, src/index.ts lines
4118-4149) -/

/-- One element of SourceComparison.results (lines 716-721). -/
structure CompareEntry where
  source : String
  value : Option ℚ
  latencyMs : Nat
  error : Option String
deriving DecidableEq, Repr

/-- SourceComparison (lines 714-722). -/
structure SourceComparison where
  query : String
  results : List CompareEntry
deriving DecidableEq, Repr

/-- JS `x || null` applied to an optional number: absent and 0 both
become null. -/
def jsFalsyToNull (x : Option ℚ) : Option ℚ :=
  match x with
  | none => none
  | some q => if q = 0 then none else some q

/-- compareEthPrice (lines 724-785).  Arguments: the etherscan price
response (data.usd), the usd field of the coingecko ethereum entry (none when
the key is absent), the price of the first defillama coin (none when absent),
and the three measured latencies.  Note the etherscan branch pushes
data.usd verbatim while the other two apply the JS falsy-to-null
coercion. -/
def compareEthPrice (ethRes : Except String ℚ)
    (cgRes dlRes : Except String (Option ℚ))
    (ethLat cgLat dlLat : Nat) : SourceComparison :=
  let ethEntry : CompareEntry :=
    match ethRes with
    | Except.ok usd => ⟨"etherscan", some usd, ethLat, none⟩
    | Except.error e => ⟨"etherscan", none, ethLat, some e⟩
  let cgEntry : CompareEntry :=
    match cgRes with
    | Except.ok usd => ⟨"coingecko", jsFalsyToNull usd, cgLat, none⟩
    | Except.error e => ⟨"coingecko", none, cgLat, some e⟩
  let dlEntry : CompareEntry :=
    match dlRes with
    | Except.ok price => ⟨"defillama", jsFalsyToNull price, dlLat, none⟩
    | Except.error e => ⟨"defillama", none, dlLat, some e⟩
  ⟨"ETH Price (USD)", [ethEntry, cgEntry, dlEntry]⟩

/-- The variance computed over the results of compareEthPrice by the
compare_eth_price_sources tool handler (src/index.ts lines 4136-4143):
with at least two non-null values, the maximum absolute deviation from
the mean, as a percentage of the mean (the base 0 of the fold is sound for
JS Math.max here because every deviation is non-negative).  The handler
only formats this number (toFixed), which is not modelled. -/
def maxVariancePct (c : SourceComparison) : Option ℚ :=
  let ps : List ℚ := c.results.filterMap (fun r => r.value)
  if 2 ≤ ps.length then
    let avg : ℚ := ps.sum / ps.length
    let maxDiff : ℚ := (ps.map (fun p => |p - avg|)).foldr max 0
    some (maxDiff / avg * 100)
  else none

/-- Whether the single invocation of a source fails the fallback test: its
thunk throws, or its value is rejected by the validator. -/
def sourceFailsB {T : Type} (validate : Option (T → Bool)) (s : Source T) : Bool :=
  match s.fn with
  | Except.ok v => validateRejects validate v
  | Except.error _ => true

/-- The circuit table after three consecutive recordFailure calls for one
provider, at times t1, t2, t3. -/
def threeFailures (cb0 : CBMap) (nm : String) (t1 t2 t3 : Nat) : CBMap :=
  recordFailure (recordFailure (recordFailure cb0 t1 nm) t2 nm) t3 nm

/-- The provider list of the validator-rejection scenario of the spec:
A throws "timeout", B resolves with price 0, C resolves with price 100. -/
def c6Sources : List (Source Int) :=
  [⟨"A", Except.error "timeout"⟩, ⟨"B", Except.ok 0⟩, ⟨"C", Except.ok 100⟩]

/-- The price validator of that scenario. -/
def c6Validate : Option (Int → Bool) := some (fun p => decide (0 < p))

/-- One call of an on-chain operation with neither the JSON-RPC node nor
the explorer configured (the thunks are then unreachable). -/
def noConfRun (cb : CBMap) : RunOutcome Int :=
  onChainCall cb 0 false none false (fun _ => none)
    (Except.error "unreachable") (Except.error "unreachable") none

/-- The comparison of the variance scenario of the spec: etherscan returns
3000, coingecko 3006, defillama fails. -/
def c4Comparison : SourceComparison :=
  compareEthPrice (Except.ok 3000) (Except.ok (some 3006))
    (Except.error "provider down") 5 6 7

/-- The circuit table after three consecutive failures of provider p, all
recorded at time 0. -/
def cbOpenP : CBMap :=
  recordFailure (recordFailure (recordFailure emptyCB 0 "p") 0 "p") 0 "p"

end EthereumMcp

namespace EthereumMcp

/-! ### Helper lemmas on the circuit-breaker table -/

lemma setCircuit_apply (m : CBMap) (s : String) (c : CircuitState) (t : String) :
    setCircuit m s c t = if t = s then c else m t := rfl

lemma recordFailure_apply_other {m : CBMap} {now : Nat} {nm t : String} (h : t ≠ nm) :
    recordFailure m now nm t = m t := by
  simp [recordFailure, setCircuit, h]

lemma recordSuccess_apply_other {m : CBMap} {nm t : String} (h : t ≠ nm) :
    recordSuccess m nm t = m t := by
  simp [recordSuccess, setCircuit, h]

lemma isCircuitOpen_snd_apply_other (m : CBMap) (now : Nat) {x t : String} (h : t ≠ x) :
    (isCircuitOpen m now x).2 t = m t := by
  by_cases h1 : (m x).isOpen = false
  · simp [isCircuitOpen, getCircuit, h1]
  · by_cases h2 : RECOVERY_TIME < now - (m x).lastFailure
    · simp [isCircuitOpen, getCircuit, h1, h2, setCircuit, h]
    · simp [isCircuitOpen, getCircuit, h1, h2]

lemma isCircuitOpen_closed {m : CBMap} {now : Nat} {s : String}
    (h : (m s).isOpen = false) : isCircuitOpen m now s = (false, m) := by
  simp [isCircuitOpen, getCircuit, h]

lemma isCircuitOpen_open_within {m : CBMap} {now : Nat} {s : String}
    (h1 : (m s).isOpen = true) (h2 : now - (m s).lastFailure ≤ RECOVERY_TIME) :
    isCircuitOpen m now s = (true, m) := by
  simp [isCircuitOpen, getCircuit, h1, Nat.not_lt.mpr h2]

lemma three_failures_state (cb0 : CBMap) (nm : String) (t1 t2 t3 : Nat)
    (hfresh : (cb0 nm).failures = 0) :
    (recordFailure (recordFailure (recordFailure cb0 t1 nm) t2 nm) t3 nm) nm
      = ⟨3, t3, true⟩ := by
  simp [recordFailure, getCircuit, setCircuit, FAILURE_THRESHOLD, hfresh]

/-! ### Loop lemmas for the fallback executor -/

lemma fallbackLoop_first_success {T : Type} (validate : Option (T → Bool)) (now : Nat)
    (post : List (Source T)) (s0 : Source T) (v : T)
    (hv : s0.fn = Except.ok v) (hacc : validateRejects validate v = false) :
    ∀ (pre : List (Source T)) (i : Nat) (errors : List (String × String))
      (cb : CBMap) (inv fl : List String),
      (∀ s ∈ pre ++ [s0], (cb s.name).isOpen = false) →
      (∀ s ∈ pre, sourceFailsB validate s = true) →
      ((pre ++ [s0]).map (fun s => s.name)).Nodup →
      (fallbackLoop validate now (pre ++ s0 :: post) i errors cb inv fl).outcome
          = Except.ok ⟨v, s0.name, i + pre.length⟩ ∧
      (fallbackLoop validate now (pre ++ s0 :: post) i errors cb inv fl).invoked
          = inv ++ pre.map (fun s => s.name) ++ [s0.name] ∧
      (fallbackLoop validate now (pre ++ s0 :: post) i errors cb inv fl).failed
          = fl ++ pre.map (fun s => s.name) := by
  intro pre
  induction pre with
  | nil =>
    intro i errors cb inv fl hcl _ _
    have hc : (cb s0.name).isOpen = false := hcl s0 (by simp)
    simp [fallbackLoop, isCircuitOpen_closed hc, hv, hacc]
  | cons p pre ih =>
    intro i errors cb inv fl hcl hpre hnd
    have hcp : (cb p.name).isOpen = false := hcl p (by simp)
    have hq : isCircuitOpen cb now p.name = (false, cb) := isCircuitOpen_closed hcp
    have hpf : sourceFailsB validate p = true := hpre p (by simp)
    have hnd1 : p.name ∉ (pre ++ [s0]).map (fun s => s.name) ∧
        ((pre ++ [s0]).map (fun s => s.name)).Nodup := by
      rw [List.cons_append, List.map_cons, List.nodup_cons] at hnd
      exact hnd
    have hnames : ∀ s ∈ pre ++ [s0], s.name ≠ p.name := by
      intro s hs heq
      exact hnd1.1 (heq ▸ List.mem_map_of_mem _ hs)
    have hcl2 : ∀ s ∈ pre ++ [s0], ((recordFailure cb now p.name) s.name).isOpen = false := by
      intro s hs
      rw [recordFailure_apply_other (hnames s hs)]
      exact hcl s (List.mem_cons_of_mem p hs)
    have hpre2 : ∀ s ∈ pre, sourceFailsB validate s = true := by
      intro s hs; exact hpre s (List.mem_cons_of_mem p hs)
    have harith : i + 1 + pre.length = i + (p :: pre).length := by
      simp [List.length_cons]; omega
    cases hfn : p.fn with
    | ok w =>
      have hrej : validateRejects validate w = true := by
        simpa [sourceFailsB, hfn] using hpf
      rw [List.cons_append]
      simp only [fallbackLoop, hq]
      simp only [Bool.false_eq_true, if_false, hfn, hrej, if_true]
      obtain ⟨h1, h2, h3⟩ := ih (i + 1) (errors ++ [(p.name, "Validation failed")])
        (recordFailure cb now p.name) (inv ++ [p.name]) (fl ++ [p.name]) hcl2 hpre2 hnd1.2
      refine ⟨?_, ?_, ?_⟩
      · rw [h1, harith]
      · rw [h2]; simp
      · rw [h3]; simp
    | error msg =>
      rw [List.cons_append]
      simp only [fallbackLoop, hq]
      simp only [Bool.false_eq_true, if_false, hfn]
      obtain ⟨h1, h2, h3⟩ := ih (i + 1) (errors ++ [(p.name, msg)])
        (recordFailure cb now p.name) (inv ++ [p.name]) (fl ++ [p.name]) hcl2 hpre2 hnd1.2
      refine ⟨?_, ?_, ?_⟩
      · rw [h1, harith]
      · rw [h2]; simp
      · rw [h3]; simp

lemma fallbackLoop_open_not_invoked {T : Type} (validate : Option (T → Bool))
    (now : Nat) (nm : String) :
    ∀ (srcs : List (Source T)) (i : Nat) (errors : List (String × String))
      (cb : CBMap) (inv fl : List String),
      (cb nm).isOpen = true → now - (cb nm).lastFailure ≤ RECOVERY_TIME →
      nm ∉ inv → nm ∉ fl →
      nm ∉ (fallbackLoop validate now srcs i errors cb inv fl).invoked ∧
      nm ∉ (fallbackLoop validate now srcs i errors cb inv fl).failed := by
  intro srcs
  induction srcs with
  | nil =>
    intro i errors cb inv fl ho hw hi hf
    simpa [fallbackLoop] using ⟨hi, hf⟩
  | cons s srcs ih =>
    intro i errors cb inv fl ho hw hi hf
    by_cases hn : s.name = nm
    · have hq : isCircuitOpen cb now s.name = (true, cb) := by
        rw [hn]; exact isCircuitOpen_open_within ho hw
      simp only [fallbackLoop, hq, if_true]
      exact ih (i + 1) _ cb inv fl ho hw hi hf
    · have hnm : nm ≠ s.name := fun hh => hn hh.symm
      rcases hq : isCircuitOpen cb now s.name with ⟨b, cb1⟩
      have hcb1 : cb1 nm = cb nm := by
        have h2 := isCircuitOpen_snd_apply_other cb now hnm
        rw [hq] at h2; exact h2
      have hcbf : (recordFailure cb1 now s.name) nm = cb nm := by
        rw [recordFailure_apply_other hnm, hcb1]
      cases b with
      | true =>
        simp only [fallbackLoop, hq, if_true]
        exact ih (i + 1) _ cb1 inv fl (by rw [hcb1]; exact ho)
          (by rw [hcb1]; exact hw) hi hf
      | false =>
        have hi2 : nm ∉ inv ++ [s.name] := by simp [hi, hnm]
        have hf2 : nm ∉ fl ++ [s.name] := by simp [hf, hnm]
        cases hfn : s.fn with
        | ok w =>
          by_cases hrej : validateRejects validate w
          · simp only [fallbackLoop, hq, Bool.false_eq_true, if_false, hfn, hrej, if_true]
            exact ih (i + 1) _ (recordFailure cb1 now s.name) (inv ++ [s.name])
              (fl ++ [s.name]) (by rw [hcbf]; exact ho) (by rw [hcbf]; exact hw) hi2 hf2
          · simp only [fallbackLoop, hq, Bool.false_eq_true, if_false, hfn,
              Bool.not_eq_true] at hrej ⊢
            simp only [hrej, if_false]
            exact ⟨hi2, hf⟩
        | error msg =>
          simp only [fallbackLoop, hq, Bool.false_eq_true, if_false, hfn]
          exact ih (i + 1) _ (recordFailure cb1 now s.name) (inv ++ [s.name])
            (fl ++ [s.name]) (by rw [hcbf]; exact ho) (by rw [hcbf]; exact hw) hi2 hf2

lemma fallbackLoop_error_message {T : Type} (validate : Option (T → Bool)) (now : Nat) :
    ∀ (srcs : List (Source T)) (i : Nat) (errors : List (String × String))
      (cb : CBMap) (inv fl : List String) (m : String),
      (fallbackLoop validate now srcs i errors cb inv fl).outcome = Except.error m →
      m = "All sources failed: "
          ++ errorSummary (fallbackLoop validate now srcs i errors cb inv fl).errors ∧
      (fallbackLoop validate now srcs i errors cb inv fl).errors.map Prod.fst
          = errors.map Prod.fst ++ srcs.map (fun s => s.name) := by
  intro srcs
  induction srcs with
  | nil =>
    intro i errors cb inv fl m h
    simp only [fallbackLoop, Except.error.injEq] at h
    simp [fallbackLoop, h]
  | cons s srcs ih =>
    intro i errors cb inv fl m h
    rcases hq : isCircuitOpen cb now s.name with ⟨b, cb1⟩
    cases b with
    | true =>
      simp only [fallbackLoop, hq, if_true] at h ⊢
      obtain ⟨h1, h2⟩ := ih (i + 1) _ cb1 inv fl m h
      exact ⟨h1, by rw [h2]; simp⟩
    | false =>
      cases hfn : s.fn with
      | ok w =>
        by_cases hrej : validateRejects validate w
        · simp only [fallbackLoop, hq, Bool.false_eq_true, if_false, hfn, hrej,
            if_true] at h ⊢
          obtain ⟨h1, h2⟩ := ih (i + 1) _ (recordFailure cb1 now s.name)
            (inv ++ [s.name]) (fl ++ [s.name]) m h
          exact ⟨h1, by rw [h2]; simp⟩
        · simp only [Bool.not_eq_true] at hrej
          simp only [fallbackLoop, hq, Bool.false_eq_true, if_false, hfn, hrej] at h
          simp at h
      | error msg =>
        simp only [fallbackLoop, hq, Bool.false_eq_true, if_false, hfn] at h ⊢
        obtain ⟨h1, h2⟩ := ih (i + 1) _ (recordFailure cb1 now s.name)
          (inv ++ [s.name]) (fl ++ [s.name]) m h
        exact ⟨h1, by rw [h2]; simp⟩

lemma fallbackLoop_validator_equiv {T : Type} (validate : Option (T → Bool)) (now : Nat)
    (post : List (Source T)) (nm : String) (v : T)
    (hrej : validateRejects validate v = true) :
    ∀ (pre : List (Source T)) (i : Nat) (errors : List (String × String))
      (cb : CBMap) (inv fl : List String),
      fallbackLoop validate now (pre ++ ⟨nm, Except.ok v⟩ :: post) i errors cb inv fl
        = fallbackLoop validate now (pre ++ ⟨nm, Except.error "Validation failed"⟩ :: post)
            i errors cb inv fl := by
  intro pre
  induction pre with
  | nil =>
    intro i errors cb inv fl
    rcases hq : isCircuitOpen cb now nm with ⟨b, cb1⟩
    cases b with
    | true => simp only [List.nil_append, fallbackLoop, hq, if_true]
    | false => simp only [List.nil_append, fallbackLoop, hq, Bool.false_eq_true,
        if_false, hrej, if_true]
  | cons p pre ih =>
    intro i errors cb inv fl
    rcases hq : isCircuitOpen cb now p.name with ⟨b, cb1⟩
    cases b with
    | true =>
      simp only [List.cons_append, fallbackLoop, hq, if_true]
      exact ih (i + 1) _ cb1 inv fl
    | false =>
      cases hfn : p.fn with
      | ok w =>
        by_cases hw : validateRejects validate w
        · simp only [List.cons_append, fallbackLoop, hq, Bool.false_eq_true, if_false,
            hfn, hw, if_true]
          exact ih (i + 1) _ (recordFailure cb1 now p.name) (inv ++ [p.name])
            (fl ++ [p.name])
        · simp only [Bool.not_eq_true] at hw
          simp only [List.cons_append, fallbackLoop, hq, Bool.false_eq_true, if_false,
            hfn, hw]
      | error msg =>
        simp only [List.cons_append, fallbackLoop, hq, Bool.false_eq_true, if_false, hfn]
        exact ih (i + 1) _ (recordFailure cb1 now p.name) (inv ++ [p.name])
          (fl ++ [p.name])

/-! ### C8: recordFailure behaviour -/

/-- C8 counterexample: a single recordFailure from the fresh state leaves
the counter at 1, below the threshold of 3, yet lastFailure changes from
0 to the supplied timestamp 5 — the claim says it is left unchanged below
the threshold. -/
theorem recordFailure_updates_lastFailure_below_threshold :
    ((recordFailure emptyCB 5 "p") "p").failures = 1 ∧
    ((recordFailure emptyCB 5 "p") "p").failures < FAILURE_THRESHOLD ∧
    ((recordFailure emptyCB 5 "p") "p").lastFailure = 5 ∧
    (emptyCB "p").lastFailure = 0 ∧
    ((recordFailure emptyCB 5 "p") "p").lastFailure ≠ (emptyCB "p").lastFailure := by
  decide

/-- C8 (amended): recordFailure increments the failure counter and always
stamps lastFailure with the current time; it sets isOpen exactly when the
new counter reaches the threshold of 3, leaves isOpen unchanged below it,
and leaves the circuit of every other provider untouched. -/
theorem recordFailure_behavior (cb : CBMap) (now : Nat) (nm : String) :
    ((recordFailure cb now nm) nm).failures = (cb nm).failures + 1 ∧
    ((recordFailure cb now nm) nm).lastFailure = now ∧
    (FAILURE_THRESHOLD ≤ (cb nm).failures + 1 → ((recordFailure cb now nm) nm).isOpen = true) ∧
    ((cb nm).failures + 1 < FAILURE_THRESHOLD →
      ((recordFailure cb now nm) nm).isOpen = (cb nm).isOpen) ∧
    (∀ t, t ≠ nm → (recordFailure cb now nm) t = cb t) := by
  refine ⟨?_, ?_, ?_, ?_, fun t ht => recordFailure_apply_other ht⟩ <;>
    by_cases h : FAILURE_THRESHOLD ≤ (cb nm).failures + 1 <;>
      simp [recordFailure, getCircuit, setCircuit, h]

/-- C8 witness: the amended recordFailure specification evaluated at the
fresh table, time 7, provider p. -/
theorem recordFailure_behavior_witness :
    ((recordFailure emptyCB 7 "p") "p").failures = (emptyCB "p").failures + 1 ∧
    ((recordFailure emptyCB 7 "p") "p").lastFailure = 7 ∧
    (FAILURE_THRESHOLD ≤ (emptyCB "p").failures + 1 →
      ((recordFailure emptyCB 7 "p") "p").isOpen = true) ∧
    ((emptyCB "p").failures + 1 < FAILURE_THRESHOLD →
      ((recordFailure emptyCB 7 "p") "p").isOpen = (emptyCB "p").isOpen) ∧
    (∀ t, t ≠ "p" → (recordFailure emptyCB 7 "p") t = emptyCB t) :=
  recordFailure_behavior emptyCB 7 "p"

/-! ### C3: the half-open probe -/

/-- C3 counterexample: with the circuit of p open and the recovery window
elapsed (query time 60001 > 60000), the first isOpen query reports closed
and so does the very next query, although no success was reported in
between — the claim that exactly one query reports closed is false. -/
theorem halfOpen_reports_closed_twice :
    (cbOpenP "p").isOpen = true ∧
    (isCircuitOpen cbOpenP 60001 "p").1 = false ∧
    (isCircuitOpen ((isCircuitOpen cbOpenP 60001 "p").2) 60001 "p").1 = false := by
  decide

/-- C3 (amended): once more than RECOVERY_TIME has elapsed since
lastFailure, the next isOpen query reports closed and clears the open
flag as a side effect; from then on every isOpen query reports closed,
regardless of whether any outcome was reported, until recordFailure runs
again — and because the failure count is still at or above the threshold,
a single recordFailure immediately re-opens the circuit. -/
theorem halfOpen_probe_clears_circuit (cb : CBMap) (nm : String) (now : Nat)
    (hopen : (cb nm).isOpen = true)
    (helapsed : RECOVERY_TIME < now - (cb nm).lastFailure) :
    (isCircuitOpen cb now nm).1 = false ∧
    (((isCircuitOpen cb now nm).2) nm).isOpen = false ∧
    (∀ now2, (isCircuitOpen ((isCircuitOpen cb now nm).2) now2 nm).1 = false) ∧
    (FAILURE_THRESHOLD ≤ (cb nm).failures →
      ∀ t, (isCircuitOpen (recordFailure ((isCircuitOpen cb now nm).2) t nm) t nm).1
        = true) := by
  have hq : isCircuitOpen cb now nm
      = (false, setCircuit cb nm { cb nm with isOpen := false }) := by
    simp [isCircuitOpen, getCircuit, hopen, helapsed]
  refine ⟨by simp [hq], by simp [hq, setCircuit, getCircuit], ?_, ?_⟩
  · intro now2
    have : ((isCircuitOpen cb now nm).2 nm).isOpen = false := by
      simp [hq, setCircuit]
    simp [isCircuitOpen_closed this]
  · intro hthr t
    have hrec : (recordFailure ((isCircuitOpen cb now nm).2) t nm) nm
        = ⟨(cb nm).failures + 1, t, true⟩ := by
      have : FAILURE_THRESHOLD ≤ (cb nm).failures + 1 := Nat.le_succ_of_le hthr
      simp [hq, recordFailure, getCircuit, setCircuit, this]
    have hle : t - ((recordFailure ((isCircuitOpen cb now nm).2) t nm) nm).lastFailure
        ≤ RECOVERY_TIME := by
      rw [hrec]; simp [RECOVERY_TIME]
    simp [isCircuitOpen_open_within (by rw [hrec]) hle]

/-! ### C1: ordered single-pass fallback -/

/-- C1: with the circuit of every listed provider closed and pairwise distinct
provider names, executeWithFallback invokes the thunk of each provider at most
once and in the order supplied, returns the result of the first provider
that resolves with a validator-accepted value, reports that same
name as source and its zero-based position as fallbacksUsed, and applies
recordFailure exactly to the providers attempted before it. -/
theorem executeWithFallback_first_success {T : Type} (cb : CBMap) (now : Nat)
    (pre post : List (Source T)) (s0 : Source T) (v : T) (validate : Option (T → Bool))
    (hnd : ((pre ++ s0 :: post).map (fun s => s.name)).Nodup)
    (hcl : ∀ s ∈ pre ++ s0 :: post, (cb s.name).isOpen = false)
    (hpre : ∀ s ∈ pre, sourceFailsB validate s = true)
    (hv : s0.fn = Except.ok v)
    (hacc : validateRejects validate v = false) :
    (executeWithFallback cb now (pre ++ s0 :: post) validate).outcome
        = Except.ok ⟨v, s0.name, pre.length⟩ ∧
    (executeWithFallback cb now (pre ++ s0 :: post) validate).invoked
        = pre.map (fun s => s.name) ++ [s0.name] ∧
    (executeWithFallback cb now (pre ++ s0 :: post) validate).invoked.Nodup ∧
    (executeWithFallback cb now (pre ++ s0 :: post) validate).failed
        = pre.map (fun s => s.name) := by
  have hsub : List.Sublist ((pre ++ [s0]).map (fun s => s.name))
      ((pre ++ s0 :: post).map (fun s => s.name)) :=
    List.Sublist.map _ (List.Sublist.append_left ((List.nil_sublist post).cons₂ s0) pre)
  have hnd0 : ((pre ++ [s0]).map (fun s => s.name)).Nodup := hnd.sublist hsub
  have hcl0 : ∀ s ∈ pre ++ [s0], (cb s.name).isOpen = false := by
    intro s hs
    rcases List.mem_append.mp hs with h | h
    · exact hcl s (List.mem_append.mpr (Or.inl h))
    · have hs0 : s = s0 := by simpa using h
      subst hs0
      exact hcl s (List.mem_append.mpr (Or.inr (List.mem_cons_self _ _)))
  obtain ⟨h1, h2, h3⟩ := fallbackLoop_first_success validate now post s0 v hv hacc
    pre 0 [] cb [] [] hcl0 hpre hnd0
  refine ⟨by simpa using h1, by simpa using h2, ?_, by simpa using h3⟩
  have h2e : (executeWithFallback cb now (pre ++ s0 :: post) validate).invoked
      = pre.map (fun s => s.name) ++ [s0.name] := by simpa using h2
  rw [h2e]
  simpa [List.map_append] using hnd0

/-- C1 witness: the first-success contract evaluated on the concrete list
[A throws, B resolves 7] with no validator. -/
theorem executeWithFallback_first_success_witness :
    (executeWithFallback emptyCB 0
        ([⟨"A", Except.error "boom"⟩] ++ ⟨"B", Except.ok (7 : Int)⟩ :: []) none).outcome
        = Except.ok ⟨7, "B", 1⟩ ∧
    (executeWithFallback emptyCB 0
        ([⟨"A", Except.error "boom"⟩] ++ ⟨"B", Except.ok (7 : Int)⟩ :: []) none).invoked
        = ["A", "B"] ∧
    (executeWithFallback emptyCB 0
        ([⟨"A", Except.error "boom"⟩] ++ ⟨"B", Except.ok (7 : Int)⟩ :: []) none).invoked.Nodup ∧
    (executeWithFallback emptyCB 0
        ([⟨"A", Except.error "boom"⟩] ++ ⟨"B", Except.ok (7 : Int)⟩ :: []) none).failed
        = ["A"] :=
  executeWithFallback_first_success emptyCB 0 [⟨"A", Except.error "boom"⟩] []
    ⟨"B", Except.ok 7⟩ 7 none (by decide) (by decide) (by decide) rfl (by decide)

/-! ### C2: three failures open the circuit and the provider is skipped -/

/-- C2: after exactly three consecutive recordFailure calls for a fresh
provider, isCircuitOpen reports true; any executeWithFallback running
within RECOVERY_TIME of the last failure never invokes that
thunk and never records a failure for it, and when the loop reaches that
provider it records the synthetic reason Circuit breaker open for it and
moves on to the next provider unchanged. -/
theorem circuit_opens_after_three_failures (T : Type) (cb0 : CBMap) (nm : String)
    (t1 t2 t3 now : Nat)
    (hfresh : (cb0 nm).failures = 0)
    (hwin : now - t3 ≤ RECOVERY_TIME) :
    (isCircuitOpen (threeFailures cb0 nm t1 t2 t3) now nm).1 = true ∧
    (∀ (validate : Option (T → Bool)) (fn : Except String T) (srcs : List (Source T))
        (i : Nat) (errors : List (String × String)) (inv fl : List String),
        fallbackLoop validate now (⟨nm, fn⟩ :: srcs) i errors
            (threeFailures cb0 nm t1 t2 t3) inv fl
          = fallbackLoop validate now srcs (i + 1)
              (errors ++ [(nm, "Circuit breaker open")])
              (threeFailures cb0 nm t1 t2 t3) inv fl) ∧
    (∀ (validate : Option (T → Bool)) (srcs : List (Source T)),
        nm ∉ (executeWithFallback (threeFailures cb0 nm t1 t2 t3) now srcs validate).invoked ∧
        nm ∉ (executeWithFallback (threeFailures cb0 nm t1 t2 t3) now srcs validate).failed) := by
  have hstate : (threeFailures cb0 nm t1 t2 t3) nm = ⟨3, t3, true⟩ :=
    three_failures_state cb0 nm t1 t2 t3 hfresh
  have ho : ((threeFailures cb0 nm t1 t2 t3) nm).isOpen = true := by rw [hstate]
  have hl : now - ((threeFailures cb0 nm t1 t2 t3) nm).lastFailure ≤ RECOVERY_TIME := by
    rw [hstate]; exact hwin
  have hq : isCircuitOpen (threeFailures cb0 nm t1 t2 t3) now nm
      = (true, threeFailures cb0 nm t1 t2 t3) := isCircuitOpen_open_within ho hl
  refine ⟨by simp [hq], ?_, ?_⟩
  · intro validate fn srcs i errors inv fl
    simp only [fallbackLoop, hq, if_true]
  · intro validate srcs
    exact fallbackLoop_open_not_invoked validate now nm srcs 0 [] _ [] [] ho hl
      (by simp) (by simp)

/-- C2 witness: three failures of p at time 0, queried at time 5 with a
list containing p; the thunk of p is never invoked and its synthetic skip
reason is the recorded step. -/
theorem circuit_opens_after_three_failures_witness :
    (isCircuitOpen (threeFailures emptyCB "p" 0 0 0) 5 "p").1 = true ∧
    "p" ∉ (executeWithFallback (threeFailures emptyCB "p" 0 0 0) 5
        [⟨"p", Except.ok (1 : Int)⟩, ⟨"q", Except.ok 2⟩] none).invoked ∧
    "p" ∉ (executeWithFallback (threeFailures emptyCB "p" 0 0 0) 5
        [⟨"p", Except.ok (1 : Int)⟩, ⟨"q", Except.ok 2⟩] none).failed :=
  have h := circuit_opens_after_three_failures Int emptyCB "p" 0 0 0 5
    (by decide) (by decide)
  ⟨h.1, (h.2.2 none [⟨"p", Except.ok 1⟩, ⟨"q", Except.ok 2⟩]).1,
    (h.2.2 none [⟨"p", Except.ok 1⟩, ⟨"q", Except.ok 2⟩]).2⟩

/-! ### C5: the aggregate error message -/

/-- C5: whenever executeWithFallback ends in an error, the message is the
aggregate string built from the recorded reason of every provider in list
order, each formatted as name colon reason and joined by a semicolon. -/
theorem allSourcesFail_message_lists_reasons {T : Type} (cb : CBMap) (now : Nat)
    (sources : List (Source T)) (validate : Option (T → Bool)) (msg : String)
    (h : (executeWithFallback cb now sources validate).outcome = Except.error msg) :
    msg = "All sources failed: "
        ++ errorSummary (executeWithFallback cb now sources validate).errors ∧
    (executeWithFallback cb now sources validate).errors.map Prod.fst
        = sources.map (fun s => s.name) := by
  obtain ⟨h1, h2⟩ := fallbackLoop_error_message validate now sources 0 [] cb [] [] msg h
  exact ⟨h1, by simpa using h2⟩

/-- C5 witness: the all-fail message for [A throws x, B fails validation]
names both providers with their individual reasons. -/
theorem allSourcesFail_message_lists_reasons_witness :
    "All sources failed: A: x; B: Validation failed"
      = "All sources failed: "
        ++ errorSummary (executeWithFallback emptyCB 0
            [⟨"A", Except.error "x"⟩, ⟨"B", Except.ok (0 : Int)⟩]
            (some (fun p => decide (0 < p)))).errors ∧
    (executeWithFallback emptyCB 0
        [⟨"A", Except.error "x"⟩, ⟨"B", Except.ok (0 : Int)⟩]
        (some (fun p => decide (0 < p)))).errors.map Prod.fst = ["A", "B"] :=
  allSourcesFail_message_lists_reasons emptyCB 0
    [⟨"A", Except.error "x"⟩, ⟨"B", Except.ok (0 : Int)⟩]
    (some (fun p => decide (0 < p)))
    "All sources failed: A: x; B: Validation failed" (by decide)

/-! ### C6: validator rejection behaves like a thrown error -/

/-- C6: replacing a provider whose value the validator rejects by one that
throws the message Validation failed leaves the entire run unchanged
(outcome, circuit table, recorded reasons, invocations, failures); and in
the scenario [A throws timeout, B returns 0, C returns 100] with the
positive-price validator, the result is 100 from C with fallbacksUsed 2
and failures recorded for both A and B. -/
theorem validator_rejection_like_thrown_error :
    (∀ (T : Type) (cb : CBMap) (now : Nat) (pre post : List (Source T)) (nm : String)
        (v : T) (validate : Option (T → Bool)),
        validateRejects validate v = true →
        executeWithFallback cb now (pre ++ ⟨nm, Except.ok v⟩ :: post) validate
          = executeWithFallback cb now
              (pre ++ ⟨nm, Except.error "Validation failed"⟩ :: post) validate) ∧
    (executeWithFallback emptyCB 0 c6Sources c6Validate).outcome
      = Except.ok ⟨100, "C", 2⟩ ∧
    (executeWithFallback emptyCB 0 c6Sources c6Validate).failed = ["A", "B"] ∧
    (executeWithFallback emptyCB 0 c6Sources c6Validate).errors
      = [("A", "timeout"), ("B", "Validation failed")] := by
  refine ⟨?_, by decide, by decide, by decide⟩
  intro T cb now pre post nm v validate hrej
  exact fallbackLoop_validator_equiv validate now post nm v hrej pre 0 [] cb [] []

/-- C6 witness: swapping B (returns 0, rejected) for a provider throwing
Validation failed leaves the concrete scenario run unchanged, and the
scenario returns 100 from C. -/
theorem validator_rejection_like_thrown_error_witness :
    executeWithFallback emptyCB 0
        ([⟨"A", Except.error "timeout"⟩] ++ ⟨"B", Except.ok (0 : Int)⟩
          :: [⟨"C", Except.ok 100⟩]) c6Validate
      = executeWithFallback emptyCB 0
        ([⟨"A", Except.error "timeout"⟩] ++ ⟨"B", Except.error "Validation failed"⟩
          :: [⟨"C", Except.ok 100⟩]) c6Validate ∧
    (executeWithFallback emptyCB 0 c6Sources c6Validate).outcome
      = Except.ok ⟨100, "C", 2⟩ :=
  ⟨validator_rejection_like_thrown_error.1 Int emptyCB 0
      [⟨"A", Except.error "timeout"⟩] [⟨"C", Except.ok 100⟩] "B" 0 c6Validate (by decide),
    validator_rejection_like_thrown_error.2.1⟩

/-- C3 witness: the amended half-open behaviour evaluated on the concrete
table cbOpenP at query time 60001. -/
theorem halfOpen_probe_clears_circuit_witness :
    (isCircuitOpen cbOpenP 60001 "p").1 = false ∧
    (((isCircuitOpen cbOpenP 60001 "p").2) "p").isOpen = false ∧
    (∀ now2, (isCircuitOpen ((isCircuitOpen cbOpenP 60001 "p").2) now2 "p").1 = false) ∧
    (FAILURE_THRESHOLD ≤ (cbOpenP "p").failures →
      ∀ t, (isCircuitOpen (recordFailure ((isCircuitOpen cbOpenP 60001 "p").2) t "p") t "p").1
        = true) :=
  halfOpen_probe_clears_circuit cbOpenP "p" 60001 (by decide) (by decide)

/-! ### C7: unconfigured on-chain operations -/

/-- C7 counterexample: with neither source configured, the first three
calls do fail with the configuration message, but they drive the synthetic
No source circuit open, so the fourth call within the recovery
window fails with Circuit breaker open instead — a message that names
neither remediation option. -/
theorem noConfig_circuit_masks_message :
    (noConfRun emptyCB).outcome
      = Except.error ("All sources failed: No source: " ++ noSourceMsg) ∧
    (noConfRun (noConfRun emptyCB).cb).outcome
      = Except.error ("All sources failed: No source: " ++ noSourceMsg) ∧
    (noConfRun (noConfRun (noConfRun emptyCB).cb).cb).outcome
      = Except.error ("All sources failed: No source: " ++ noSourceMsg) ∧
    (noConfRun (noConfRun (noConfRun (noConfRun emptyCB).cb).cb).cb).outcome
      = Except.error "All sources failed: No source: Circuit breaker open" ∧
    strOccurs "All sources failed: No source: Circuit breaker open" "set_etherscan_key"
      = false ∧
    strOccurs "All sources failed: No source: Circuit breaker open" "set_node_url"
      = false := by
  decide

/-- C7 (amended): with neither the JSON-RPC node nor the explorer
configured, any on-chain primitive call whose synthetic No source circuit
is not currently reported open fails with the configuration-error message,
which names both remediation options (set_etherscan_key and
set_node_url). -/
theorem noConfig_fails_with_remediation (T : Type) (cb : CBMap) (now : Nat)
    (nodeChainId : Option String) (chainIdOf : String → Option String)
    (jfn efn : Except String T) (rc : Option String)
    (hcb : (isCircuitOpen cb now "No source").1 = false) :
    (onChainCall cb now false nodeChainId false chainIdOf jfn efn rc).outcome
      = Except.error ("All sources failed: No source: " ++ noSourceMsg) ∧
    strOccurs ("All sources failed: No source: " ++ noSourceMsg) "set_etherscan_key"
      = true ∧
    strOccurs ("All sources failed: No source: " ++ noSourceMsg) "set_node_url"
      = true := by
  have hsrc : onChainSources false nodeChainId false chainIdOf jfn efn rc
      = [⟨"No source", Except.error noSourceMsg⟩] := by
    simp [onChainSources]
  rcases hq : isCircuitOpen cb now "No source" with ⟨b, cb1⟩
  have hb : b = false := by rw [hq] at hcb; exact hcb
  subst hb
  refine ⟨?_, by decide, by decide⟩
  show (onChainCall cb now false nodeChainId false chainIdOf jfn efn rc).outcome = _
  simp only [onChainCall, hsrc, executeWithFallback, fallbackLoop, hq,
    Bool.false_eq_true, if_false]
  have hs : "All sources failed: " ++ errorSummary ([] ++ [("No source", noSourceMsg)])
      = "All sources failed: No source: " ++ noSourceMsg := by decide
  rw [hs]

/-- C7 witness: the amended no-configuration behaviour evaluated on the
fresh table at time 0. -/
theorem noConfig_fails_with_remediation_witness :
    (onChainCall emptyCB 0 false none false (fun _ => none)
        (Except.error "unreachable" : Except String Int) (Except.error "unreachable")
        none).outcome
      = Except.error ("All sources failed: No source: " ++ noSourceMsg) ∧
    strOccurs ("All sources failed: No source: " ++ noSourceMsg) "set_etherscan_key"
      = true ∧
    strOccurs ("All sources failed: No source: " ++ noSourceMsg) "set_node_url"
      = true :=
  noConfig_fails_with_remediation Int emptyCB 0 none (fun _ => none)
    (Except.error "unreachable") (Except.error "unreachable") none (by decide)

/-! ### C9: case handling in getL2Tvl -/

/-- C9 counterexample: the L2-analytics lookup is not case-insensitive on
the provider side. The lowercased query arbitrum is compared verbatim
against the chain key Arbitrum, which differs only in case, so growthepie
reports Chain not found even though the chain is present. -/
theorem gtp_key_case_mismatch :
    gtpTvlFn (Except.ok [("Arbitrum", 100)]) (jsToLower "arbitrum")
      = Except.error "Chain not found" ∧
    (getL2Tvl emptyCB 0 (Except.ok [("Arbitrum", 100)]) (Except.error "defillama down")
        "arbitrum").outcome
      = Except.error "All sources failed: growthepie: Chain not found; defillama: defillama down" := by
  decide

/-- C9 (amended): getL2Tvl lowercases its chain argument, so two calls
whose chain arguments differ only in letter case produce identical results
under identical provider responses; and the chain list of the DeFi aggregator
is matched fully case-insensitively (the result depends only on the
lowercased list names), while the L2-analytics keys are compared verbatim
against the lowercased argument. -/
theorem getL2Tvl_case_insensitive_argument :
    (∀ (cb : CBMap) (now : Nat) (gtpRes dlRes : Except String (List (String × Int)))
        (c1 c2 : String), jsToLower c1 = jsToLower c2 →
        getL2Tvl cb now gtpRes dlRes c1 = getL2Tvl cb now gtpRes dlRes c2) ∧
    (∀ (chains1 chains2 : List (String × Int)),
        chains1.map (fun c => (jsToLower c.1, c.2))
          = chains2.map (fun c => (jsToLower c.1, c.2)) →
        ∀ nc, dlTvlFn (Except.ok chains1) nc = dlTvlFn (Except.ok chains2) nc) := by
  constructor
  · intro cb now gtpRes dlRes c1 c2 h
    simp only [getL2Tvl, h]
  · intro chains1
    induction chains1 with
    | nil =>
      intro chains2 h nc
      cases chains2 with
      | nil => rfl
      | cons c2 t2 => simp at h
    | cons c t ih =>
      intro chains2 h nc
      cases chains2 with
      | nil => simp at h
      | cons c2 t2 =>
        simp only [List.map_cons, List.cons.injEq, Prod.mk.injEq] at h
        obtain ⟨⟨hname, hval⟩, htail⟩ := h
        by_cases hp : (jsToLower c.1 == nc) = true
        · have hp2 : (jsToLower c2.1 == nc) = true := by rw [← hname]; exact hp
          simp only [dlTvlFn, List.find?, hp, hp2, hval]
        · have hpf : (jsToLower c.1 == nc) = false := by
            simp only [Bool.not_eq_true] at hp; exact hp
          have hpf2 : (jsToLower c2.1 == nc) = false := by rw [← hname]; exact hpf
          simp only [dlTvlFn, List.find?, hpf, hpf2]
          exact ih t2 htail nc

/-- C9 witness: the argument-case invariance at Arbitrum versus arbitrum,
and the aggregator-list case invariance at Base versus BASE. -/
theorem getL2Tvl_case_insensitive_argument_witness :
    getL2Tvl emptyCB 0 (Except.ok [("arbitrum", 7)]) (Except.ok []) "Arbitrum"
      = getL2Tvl emptyCB 0 (Except.ok [("arbitrum", 7)]) (Except.ok []) "arbitrum" ∧
    dlTvlFn (Except.ok [("Base", 1)]) "base" = dlTvlFn (Except.ok [("BASE", 1)]) "base" :=
  ⟨getL2Tvl_case_insensitive_argument.1 emptyCB 0 (Except.ok [("arbitrum", 7)])
      (Except.ok []) "Arbitrum" "arbitrum" (by decide),
    getL2Tvl_case_insensitive_argument.2 [("Base", 1)] [("BASE", 1)] (by decide) "base"⟩

/-! ### C10: a zero TVL is treated as a missing chain -/

/-- C10: the validator of getL2Tvl accepts a zero TVL, yet both provider
thunks treat a TVL of exactly 0 as the JS-falsy missing-chain case and
throw Chain not found, so a chain whose TVL is zero at both providers
always yields the aggregate failure naming Chain not found for both. -/
theorem zeroTvl_rejected_as_chain_not_found :
    (tvlValidate 0 = true) ∧
    (∀ (fund : List (String × Int)) (nc : String),
        fund.lookup (jsToLower nc) = some 0 →
        gtpTvlFn (Except.ok fund) nc = Except.error "Chain not found") ∧
    (∀ (chains : List (String × Int)) (nc : String) (c : String × Int),
        chains.find? (fun e => jsToLower e.1 == nc) = some c → c.2 = 0 →
        dlTvlFn (Except.ok chains) nc = Except.error "Chain not found") ∧
    (∀ (cb : CBMap) (now : Nat) (gtpRes dlRes : Except String (List (String × Int)))
        (chain : String),
        (cb "growthepie").isOpen = false → (cb "defillama").isOpen = false →
        gtpTvlFn gtpRes (jsToLower chain) = Except.error "Chain not found" →
        dlTvlFn dlRes (jsToLower chain) = Except.error "Chain not found" →
        (getL2Tvl cb now gtpRes dlRes chain).outcome
          = Except.error "All sources failed: growthepie: Chain not found; defillama: Chain not found") := by
  refine ⟨by decide, ?_, ?_, ?_⟩
  · intro fund nc h
    simp [gtpTvlFn, getL2Chain, h]
  · intro chains nc c h hz
    simp [dlTvlFn, h, hz]
  · intro cb now gtpRes dlRes chain hg hd hgf hdf
    have hq1 : isCircuitOpen cb now "growthepie" = (false, cb) := isCircuitOpen_closed hg
    have hd2 : ((recordFailure cb now "growthepie") "defillama").isOpen = false := by
      rw [recordFailure_apply_other (by decide)]; exact hd
    have hq2 : isCircuitOpen (recordFailure cb now "growthepie") now "defillama"
        = (false, recordFailure cb now "growthepie") := isCircuitOpen_closed hd2
    simp only [getL2Tvl, executeWithFallback, fallbackLoop, hq1, hgf, hq2, hdf,
      Bool.false_eq_true, if_false]
    decide

/-- C10 witness: the zero-TVL behaviour evaluated with chain zeroland
present with TVL 0 at both providers. -/
theorem zeroTvl_rejected_as_chain_not_found_witness :
    tvlValidate 0 = true ∧
    gtpTvlFn (Except.ok [("zeroland", 0)]) "zeroland" = Except.error "Chain not found" ∧
    dlTvlFn (Except.ok [("Zeroland", 0)]) "zeroland" = Except.error "Chain not found" ∧
    (getL2Tvl emptyCB 0 (Except.ok [("zeroland", 0)]) (Except.ok [("Zeroland", 0)])
        "Zeroland").outcome
      = Except.error "All sources failed: growthepie: Chain not found; defillama: Chain not found" :=
  ⟨zeroTvl_rejected_as_chain_not_found.1,
    zeroTvl_rejected_as_chain_not_found.2.1 [("zeroland", 0)] "zeroland" (by decide),
    zeroTvl_rejected_as_chain_not_found.2.2.1 [("Zeroland", 0)] "zeroland"
      ("Zeroland", 0) (by decide) (by decide),
    zeroTvl_rejected_as_chain_not_found.2.2.2 emptyCB 0 (Except.ok [("zeroland", 0)])
      (Except.ok [("Zeroland", 0)]) "Zeroland" (by decide) (by decide) (by decide)
      (by decide)⟩

/-! ### C4: compareEthPrice and the variance signal -/

/-- C4 counterexample: with providers returning 3000 and 3006, the maximum
deviation from the mean 3003 is 3, so the reported variance is
100 times 3 over 3003, about 0.0999 percent — not the claimed 0.2
percent. -/
theorem compareEthPrice_variance_not_point_two :
    maxVariancePct c4Comparison = some (100 / 1001) ∧
    (100 / 1001 : ℚ) ≠ 2 / 10 ∧
    (100 / 1001 : ℚ) < 2 / 10 := by
  refine ⟨?_, by norm_num, by norm_num⟩
  simp [c4Comparison, maxVariancePct, compareEthPrice, jsFalsyToNull]
  norm_num

/-- C4 (amended): compareEthPrice collects one entry per provider with its
measured latency whatever the three outcomes are, and the tool-layer
variance over the 3000 and 3006 scenario is 100 over 1001 percent,
roughly 0.1 percent against the mean 3003. -/
theorem compareEthPrice_collects_all_sources :
    (∀ (ethRes : Except String ℚ) (cgRes dlRes : Except String (Option ℚ))
        (l1 l2 l3 : Nat),
        (compareEthPrice ethRes cgRes dlRes l1 l2 l3).results.map (fun r => r.source)
          = ["etherscan", "coingecko", "defillama"] ∧
        (compareEthPrice ethRes cgRes dlRes l1 l2 l3).results.map (fun r => r.latencyMs)
          = [l1, l2, l3]) ∧
    maxVariancePct c4Comparison = some (100 / 1001) := by
  constructor
  · intro ethRes cgRes dlRes l1 l2 l3
    rcases ethRes <;> rcases cgRes <;> rcases dlRes <;> simp [compareEthPrice]
  · simp [c4Comparison, maxVariancePct, compareEthPrice, jsFalsyToNull]
    norm_num

end EthereumMcp
